import Mathlib

/-!
Verification development for the `ipwhere` IP-geolocation service.

This file shallowly embeds the core of the repository — the lookup service
and field projector in `internal/geo/reader.go`, plus the field-name
normalization step of the HTTP handler (`internal/api/handler.go`) — as
executable Lean definitions, and proves properties of them.

External collaborators (the geoip2 MMDB reader library and the system DNS
resolver) are modelled as inputs: each external query's outcome is passed
to the embedded `Reader.Lookup` as an `Except` value, mirroring the
`(value, err)` pairs the Go code receives from them.  `float64` coordinate
values are modelled as rationals: the code only copies them and compares
them with zero, so no floating-point arithmetic semantics are involved.

Go strings with the `omitempty` JSON tag use the zero value `""` to mean
"absent"; the embedding keeps that representation.  Go pointer fields
(`*float64`, `*uint`) become `Option`.  The `map[string]interface{}`
returned by `FilterFields` is modelled as an insertion-ordered association
list with Go-map assignment semantics (`mapAssign`).
-/

namespace IpWhere

/-- Attribution is the required attribution for DB-IP
(constant `Attribution` in `internal/geo/reader.go`). -/
def Attribution : String := "IP Geolocation by DB-IP (https://db-ip.com)"

/-- The `Country` part of a geoip2 city record, restricted to the
sub-fields the code reads.  `namesEn` stands for `Names["en"]`; a Go map
read yields the zero value `""` when the key is absent. -/
structure GoCountryRecord where
  namesEn : String
  isoCode : String
  isInEuropeanUnion : Bool
deriving DecidableEq, Repr

/-- The `City` part of a geoip2 city record (`Names["en"]`). -/
structure GoCityNames where
  namesEn : String
deriving DecidableEq, Repr

/-- One entry of the `Subdivisions` slice of a geoip2 city record. -/
structure GoSubdivision where
  namesEn : String
deriving DecidableEq, Repr

/-- The `Location` part of a geoip2 city record.  Coordinates are
`float64` in Go; the code only copies and zero-tests them, so rationals
model them faithfully here. -/
structure GoLocation where
  latitude : Rat
  longitude : Rat
  timeZone : String
deriving DecidableEq, Repr

/-- A geoip2 city-dataset record, restricted to the fields read by
`Reader.Lookup`. -/
structure GoCity where
  country : GoCountryRecord
  city : GoCityNames
  subdivisions : List GoSubdivision
  location : GoLocation
deriving DecidableEq, Repr

/-- A geoip2 ASN-dataset record, restricted to the fields read by
`Reader.Lookup`. -/
structure GoASN where
  autonomousSystemNumber : Nat
  autonomousSystemOrganization : String
deriving DecidableEq, Repr

/-- `IPInfo` from `internal/geo/reader.go`: the normalized lookup result.
String fields carry Go's zero value `""` when absent (their JSON tags are
`omitempty`); the pointer fields `Latitude`, `Longitude` (`*float64`) and
`ASN` (`*uint`) become `Option`. -/
structure IPInfo where
  ip : String
  hostname : String
  country : String
  isoCode : String
  inEU : Bool
  city : String
  region : String
  latitude : Option Rat
  longitude : Option Rat
  timezone : String
  asn : Option Nat
  organization : String
  attribution : String
deriving DecidableEq, Repr

/-- The `IPInfo` value `Reader.Lookup` starts from:
`&IPInfo{IP: ip.String(), Attribution: Attribution}` — every other field
holds its Go zero value. -/
def baseInfo (ipStr : String) : IPInfo :=
  { ip := ipStr
    hostname := ""
    country := ""
    isoCode := ""
    inEU := false
    city := ""
    region := ""
    latitude := none
    longitude := none
    timezone := ""
    asn := none
    organization := ""
    attribution := Attribution }

/-- The city/country block of `Reader.Lookup`: executed when the city
dataset query returned no error (`if err == nil`). -/
def applyCity (info : IPInfo) (cityQuery : Except String GoCity) : IPInfo :=
  match cityQuery with
  | .error _ => info
  | .ok city =>
    let info := { info with
      country := city.country.namesEn
      isoCode := city.country.isoCode
      inEU := city.country.isInEuropeanUnion
      city := city.city.namesEn }
    let info :=
      match city.subdivisions with
      | [] => info
      | s :: _ => { info with region := s.namesEn }
    let info :=
      if city.location.latitude ≠ 0 ∨ city.location.longitude ≠ 0 then
        { info with
          latitude := some city.location.latitude
          longitude := some city.location.longitude }
      else info
    { info with timezone := city.location.timeZone }

/-- The ASN block of `Reader.Lookup`: executed when the ASN dataset query
returned no error. -/
def applyASN (info : IPInfo) (asnQuery : Except String GoASN) : IPInfo :=
  match asnQuery with
  | .error _ => info
  | .ok asn =>
    { info with
      asn := some asn.autonomousSystemNumber
      organization := asn.autonomousSystemOrganization }

/-- `hostname[:len(hostname)-1]` applied when the last byte is `'.'`:
removes a single trailing dot.  (A final `'.'` byte in UTF-8 is always a
standalone character, so character-level last/drop is faithful.) -/
def stripTrailingDot (hostname : String) : String :=
  if hostname.length > 0 ∧ hostname.back = '.' then hostname.dropRight 1
  else hostname

/-- The reverse-DNS block of `Reader.Lookup`: only runs when online
features are enabled; uses the first returned name when resolution
succeeded with at least one name, stripping a trailing dot. -/
def applyDNS (enableOnlineFeatures : Bool) (info : IPInfo)
    (dnsQuery : Except String (List String)) : IPInfo :=
  if enableOnlineFeatures then
    match dnsQuery with
    | .ok (name :: _) => { info with hostname := stripTrailingDot name }
    | .ok [] => info
    | .error _ => info
  else info

/-- `Reader.Lookup` from `internal/geo/reader.go`.  The three external
calls (`cityDB.City ip`, `asnDB.ASN ip`, `net.LookupAddr ip`) are passed
in as their outcomes; `ipStr` stands for `ip.String()`.  The Go function
returns the pair `(*IPInfo, error)`, modelled as
`Option IPInfo × Option String`; its single return statement is
`return info, nil`. -/
def Reader.Lookup (enableOnlineFeatures : Bool) (ipStr : String)
    (cityQuery : Except String GoCity) (asnQuery : Except String GoASN)
    (dnsQuery : Except String (List String)) : Option IPInfo × Option String :=
  let info := baseInfo ipStr
  let info := applyCity info cityQuery
  let info := applyASN info asnQuery
  let info := applyDNS enableOnlineFeatures info dnsQuery
  (some info, none)

/-- The heterogeneous values stored in the `map[string]interface{}`
built by `FilterFields`. -/
inductive FieldValue where
  | str (s : String)
  | boolean (b : Bool)
  | optFloat (x : Option Rat)
  | optNat (x : Option Nat)
deriving DecidableEq, Repr

/-- Association-list model of the Go map: `m[k] = v` replaces the binding
of `k` when present and otherwise appends it. -/
def mapAssign (m : List (String × FieldValue)) (k : String) (v : FieldValue) :
    List (String × FieldValue) :=
  if m.any (fun p => p.1 == k) then
    m.map (fun p => if p.1 == k then (k, v) else p)
  else m ++ [(k, v)]

/-- The `fieldMap` literal of `FilterFields`: recognized field names and
the record field each one exposes. -/
def fieldMapList (info : IPInfo) : List (String × FieldValue) :=
  [("hostname", .str info.hostname),
   ("country", .str info.country),
   ("iso_code", .str info.isoCode),
   ("in_eu", .boolean info.inEU),
   ("city", .str info.city),
   ("region", .str info.region),
   ("latitude", .optFloat info.latitude),
   ("longitude", .optFloat info.longitude),
   ("timezone", .str info.timezone),
   ("asn", .optNat info.asn),
   ("organization", .str info.organization)]

/-- The recognized field-name keys, in the order of the `fieldMap`
literal. -/
def recognizedKeys : List String :=
  ["hostname", "country", "iso_code", "in_eu", "city", "region",
   "latitude", "longitude", "timezone", "asn", "organization"]

/-- Loop body of `FilterFields`:
`if val, ok := fieldMap[field]; ok { result[field] = val }`. -/
def projStep (info : IPInfo) (acc : List (String × FieldValue))
    (field : String) : List (String × FieldValue) :=
  match List.lookup field (fieldMapList info) with
  | some val => mapAssign acc field val
  | none => acc

/-- `IPInfo.FilterFields` from `internal/geo/reader.go`: starts from a map
holding `ip` and `attribution`, then copies each recognized requested
field from `fieldMap`. -/
def IPInfo.FilterFields (info : IPInfo) (fields : List String) :
    List (String × FieldValue) :=
  List.foldl (projStep info)
    [("ip", .str info.ip), ("attribution", .str info.attribution)] fields

/-- Embedding of `strings.ToLower` as used by the handler on field names
(ASCII case mapping; Go `unicode.ToLower` and `Char.toLower` agree on
ASCII). -/
def goToLower (s : String) : String := String.mk (s.data.map Char.toLower)

/-- The field-name normalization loop of `Handler.IPLookup`
(`internal/api/handler.go`): every requested name is lowercased before
`FilterFields` is called. -/
def normalizeFields (fields : List String) : List String :=
  fields.map goToLower

/-- The field projection as performed by the HTTP handler: normalization
followed by `FilterFields` (`filtered := info.FilterFields(normalizedFields)`). -/
def projectFields (info : IPInfo) (returnFields : List String) :
    List (String × FieldValue) :=
  info.FilterFields (normalizeFields returnFields)

/-- Handle to an opened MMDB database (external `geoip2.Reader`),
abstracted to its identity. -/
structure GoDB where
  path : String
deriving DecidableEq, Repr

/-- `Reader` from `internal/geo/reader.go` as produced by `NewReader`
(the `sync.RWMutex` holds no data and is omitted). -/
structure GeoReader where
  cityDB : GoDB
  asnDB : GoDB
  enableOnlineFeatures : Bool
deriving DecidableEq, Repr

/-- `NewReader` from `internal/geo/reader.go`.  The two external
`geoip2.Open` calls are passed in as their outcomes.  `fmt.Errorf` with
`%w` prefixes the wrapped error's message. -/
def NewReader (cityOpen : Except String GoDB) (asnOpen : Except String GoDB)
    (enableOnlineFeatures : Bool) : Except String GeoReader :=
  match cityOpen with
  | .error err => .error ("failed to open city database: " ++ err)
  | .ok cityDB =>
    match asnOpen with
    | .error err => .error ("failed to open ASN database: " ++ err)
    | .ok asnDB =>
      .ok { cityDB := cityDB, asnDB := asnDB,
            enableOnlineFeatures := enableOnlineFeatures }

/-- Key membership in the association-list model of the Go map. -/
def containsKey (m : List (String × FieldValue)) (k : String) : Bool :=
  m.any (fun p => p.1 == k)

/-! ### Association-list lemmas -/

theorem containsKey_mapAssign (m : List (String × FieldValue)) (k k' : String)
    (v : FieldValue) :
    containsKey (mapAssign m k v) k' = true ↔
      (containsKey m k' = true ∨ k' = k) := by
  unfold mapAssign
  split
  · rename_i hmem
    simp only [containsKey, List.any_eq_true] at hmem ⊢
    constructor
    · rintro ⟨p, hp, hpred⟩
      rcases List.mem_map.mp hp with ⟨q, hq, hfq⟩
      by_cases hqk : q.1 == k
      · rw [if_pos hqk] at hfq
        subst hfq
        simp only [beq_iff_eq] at hpred
        exact Or.inr hpred.symm
      · rw [if_neg hqk] at hfq
        subst hfq
        exact Or.inl ⟨q, hq, hpred⟩
    · rintro (⟨p, hp, hpred⟩ | hkk)
      · by_cases hpk : p.1 == k
        · refine Or.elim (em (k' = k)) ?_ ?_
          · intro he
            rcases hmem with ⟨q, hq, hqpred⟩
            refine ⟨(k, v), List.mem_map.mpr ⟨q, hq, by rw [if_pos hqpred]⟩, ?_⟩
            simp [he]
          · intro hne
            exfalso
            apply hne
            have h1 : p.1 = k := beq_iff_eq.mp hpk
            have h2 : p.1 = k' := beq_iff_eq.mp hpred
            rw [← h2, h1]
        · refine ⟨p, List.mem_map.mpr ⟨p, hp, by rw [if_neg hpk]⟩, hpred⟩
      · subst hkk
        rcases hmem with ⟨q, hq, hqpred⟩
        refine ⟨(k', v), List.mem_map.mpr ⟨q, hq, by rw [if_pos hqpred]⟩, by simp⟩
  · simp only [containsKey, List.any_append, List.any_cons, List.any_nil,
      Bool.or_false, Bool.or_eq_true, beq_iff_eq]
    constructor
    · rintro (h1 | h2)
      · exact Or.inl h1
      · exact Or.inr h2.symm
    · rintro (h1 | h2)
      · exact Or.inl h1
      · exact Or.inr h2.symm

theorem lookup_mapAssign_ne (m : List (String × FieldValue)) (k k' : String)
    (v : FieldValue) (h : k' ≠ k) :
    List.lookup k' (mapAssign m k v) = List.lookup k' m := by
  have hbeq : (k' == k) = false := by simp [h]
  unfold mapAssign
  split
  · rename_i hmem
    clear hmem
    induction m with
    | nil => rfl
    | cons p t ih =>
      cases p with
      | mk a b =>
        simp only [List.map_cons]
        by_cases hak : a = k
        · subst hak
          rw [if_pos (by simp)]
          rw [List.lookup_cons, List.lookup_cons, hbeq]
          exact ih
        · rw [if_neg (by simpa using hak)]
          rw [List.lookup_cons, List.lookup_cons]
          cases hka : k' == a with
          | true => rfl
          | false => exact ih
  · rw [List.lookup_append]
    have h1 : List.lookup k' [(k, v)] = none := by
      rw [List.lookup_cons, hbeq]
      rfl
    rw [h1, Option.or_none]

theorem lookup_isSome_iff_mem {β : Type} (l : List (String × β)) (f : String) :
    (List.lookup f l).isSome = true ↔ f ∈ l.map Prod.fst := by
  induction l with
  | nil => simp
  | cons p t ih =>
    cases p with
    | mk a b =>
      rw [List.lookup_cons]
      simp only [List.map_cons, List.mem_cons]
      cases hfa : f == a with
      | true =>
        have hfa2 : f = a := beq_iff_eq.mp hfa
        simp [hfa2]
      | false =>
        have hfa2 : ¬ f = a := ne_of_beq_false hfa
        simp [hfa2, ih]

theorem fieldMapList_keys (info : IPInfo) :
    (fieldMapList info).map Prod.fst = recognizedKeys := rfl

theorem lookup_fieldMapList_isSome (info : IPInfo) (f : String) :
    (List.lookup f (fieldMapList info)).isSome = true ↔ f ∈ recognizedKeys := by
  rw [lookup_isSome_iff_mem, fieldMapList_keys]

theorem foldl_projStep_containsKey (info : IPInfo) (fields : List String) :
    ∀ (acc : List (String × FieldValue)) (k : String),
      containsKey (List.foldl (projStep info) acc fields) k = true ↔
        (containsKey acc k = true ∨ (k ∈ fields ∧ k ∈ recognizedKeys)) := by
  induction fields with
  | nil => simp
  | cons f t ih =>
    intro acc k
    rw [List.foldl_cons, ih]
    unfold projStep
    cases hlook : List.lookup f (fieldMapList info) with
    | none =>
      have hf : f ∉ recognizedKeys := by
        rw [← lookup_fieldMapList_isSome info f, hlook]
        simp
      simp only [List.mem_cons]
      constructor
      · rintro (hacc | hmem)
        · exact Or.inl hacc
        · exact Or.inr ⟨Or.inr hmem.1, hmem.2⟩
      · rintro (hacc | ⟨(rfl | hmem), hrec⟩)
        · exact Or.inl hacc
        · exact absurd hrec hf
        · exact Or.inr ⟨hmem, hrec⟩
    | some v =>
      have hf : f ∈ recognizedKeys := by
        rw [← lookup_fieldMapList_isSome info f, hlook]
        rfl
      rw [containsKey_mapAssign]
      simp only [List.mem_cons]
      constructor
      · rintro ((hacc | rfl) | hmem)
        · exact Or.inl hacc
        · exact Or.inr ⟨Or.inl rfl, hf⟩
        · exact Or.inr ⟨Or.inr hmem.1, hmem.2⟩
      · rintro (hacc | ⟨(rfl | hmem), hrec⟩)
        · exact Or.inl (Or.inl hacc)
        · exact Or.inl (Or.inr rfl)
        · exact Or.inr ⟨hmem, hrec⟩

theorem foldl_projStep_lookup_not_recognized (info : IPInfo) (fields : List String) :
    ∀ (acc : List (String × FieldValue)) (k : String), k ∉ recognizedKeys →
      List.lookup k (List.foldl (projStep info) acc fields) = List.lookup k acc := by
  induction fields with
  | nil => intro acc k _; rfl
  | cons f t ih =>
    intro acc k hk
    rw [List.foldl_cons, ih _ k hk]
    unfold projStep
    cases hlook : List.lookup f (fieldMapList info) with
    | none => rfl
    | some v =>
      have hf : f ∈ recognizedKeys := by
        rw [← lookup_fieldMapList_isSome info f, hlook]
        rfl
      exact lookup_mapAssign_ne acc f k v (fun he => hk (he ▸ hf))

/-! ### Lookup-stage lemmas -/

theorem applyCity_err (info : IPInfo) (e : String) :
    applyCity info (.error e) = info := rfl

theorem applyCity_ok (info : IPInfo) (city : GoCity) :
    applyCity info (.ok city) =
      { info with
        country := city.country.namesEn
        isoCode := city.country.isoCode
        inEU := city.country.isInEuropeanUnion
        city := city.city.namesEn
        region := match city.subdivisions with
          | [] => info.region
          | s :: _ => s.namesEn
        latitude := if city.location.latitude ≠ 0 ∨ city.location.longitude ≠ 0
          then some city.location.latitude else info.latitude
        longitude := if city.location.latitude ≠ 0 ∨ city.location.longitude ≠ 0
          then some city.location.longitude else info.longitude
        timezone := city.location.timeZone } := by
  rcases city with ⟨co, ci, subs, loc⟩
  unfold applyCity
  cases subs <;>
    by_cases h : loc.latitude ≠ 0 ∨ loc.longitude ≠ 0 <;>
      simp [h]

theorem applyASN_err (info : IPInfo) (e : String) :
    applyASN info (.error e) = info := rfl

theorem applyASN_ok (info : IPInfo) (asn : GoASN) :
    applyASN info (.ok asn) =
      { info with
        asn := some asn.autonomousSystemNumber
        organization := asn.autonomousSystemOrganization } := rfl

theorem applyDNS_disabled (info : IPInfo) (dq : Except String (List String)) :
    applyDNS false info dq = info := rfl

theorem applyDNS_err (e : Bool) (info : IPInfo) (msg : String) :
    applyDNS e info (.error msg) = info := by
  cases e <;> rfl

theorem applyDNS_nil (e : Bool) (info : IPInfo) :
    applyDNS e info (.ok []) = info := by
  cases e <;> rfl

theorem applyDNS_cons (info : IPInfo) (name : String) (rest : List String) :
    applyDNS true info (.ok (name :: rest)) =
      { info with hostname := stripTrailingDot name } := rfl

theorem applyASN_keeps (info : IPInfo) (aq : Except String GoASN) :
    (applyASN info aq).ip = info.ip ∧
    (applyASN info aq).attribution = info.attribution ∧
    (applyASN info aq).hostname = info.hostname ∧
    (applyASN info aq).country = info.country ∧
    (applyASN info aq).isoCode = info.isoCode ∧
    (applyASN info aq).inEU = info.inEU ∧
    (applyASN info aq).city = info.city ∧
    (applyASN info aq).region = info.region ∧
    (applyASN info aq).latitude = info.latitude ∧
    (applyASN info aq).longitude = info.longitude ∧
    (applyASN info aq).timezone = info.timezone := by
  cases aq <;> exact ⟨rfl, rfl, rfl, rfl, rfl, rfl, rfl, rfl, rfl, rfl, rfl⟩

theorem applyDNS_keeps (e : Bool) (info : IPInfo) (dq : Except String (List String)) :
    (applyDNS e info dq).ip = info.ip ∧
    (applyDNS e info dq).attribution = info.attribution ∧
    (applyDNS e info dq).country = info.country ∧
    (applyDNS e info dq).isoCode = info.isoCode ∧
    (applyDNS e info dq).inEU = info.inEU ∧
    (applyDNS e info dq).city = info.city ∧
    (applyDNS e info dq).region = info.region ∧
    (applyDNS e info dq).latitude = info.latitude ∧
    (applyDNS e info dq).longitude = info.longitude ∧
    (applyDNS e info dq).timezone = info.timezone ∧
    (applyDNS e info dq).asn = info.asn ∧
    (applyDNS e info dq).organization = info.organization := by
  cases e with
  | false => exact ⟨rfl, rfl, rfl, rfl, rfl, rfl, rfl, rfl, rfl, rfl, rfl, rfl⟩
  | true =>
    cases dq with
    | error m => exact ⟨rfl, rfl, rfl, rfl, rfl, rfl, rfl, rfl, rfl, rfl, rfl, rfl⟩
    | ok names =>
      cases names <;> exact ⟨rfl, rfl, rfl, rfl, rfl, rfl, rfl, rfl, rfl, rfl, rfl, rfl⟩

theorem applyCity_keeps (info : IPInfo) (cq : Except String GoCity) :
    (applyCity info cq).ip = info.ip ∧
    (applyCity info cq).attribution = info.attribution ∧
    (applyCity info cq).hostname = info.hostname ∧
    (applyCity info cq).asn = info.asn ∧
    (applyCity info cq).organization = info.organization := by
  cases cq with
  | error e => exact ⟨rfl, rfl, rfl, rfl, rfl⟩
  | ok city =>
    rw [applyCity_ok]
    exact ⟨rfl, rfl, rfl, rfl, rfl⟩

/-! ### Case-mapping lemmas -/

theorem toNat_charOfNat_of_lt {n : Nat} (h : n < 55296) : (Char.ofNat n).toNat = n := by
  rw [Char.ofNat, dif_pos (Or.inl h)]
  rfl

theorem charToLower_idem (c : Char) : c.toLower.toLower = c.toLower := by
  by_cases h : c.toNat ≥ 65 ∧ c.toNat ≤ 90
  · have h1 : c.toLower = Char.ofNat (c.toNat + 32) := by
      rw [Char.toLower, if_pos h]
    have h2 : (Char.ofNat (c.toNat + 32)).toNat = c.toNat + 32 :=
      toNat_charOfNat_of_lt (by omega)
    rw [h1, Char.toLower, h2, if_neg (by omega)]
  · have h1 : c.toLower = c := by rw [Char.toLower, if_neg h]
    rw [h1]
    exact h1

theorem goToLower_idem (s : String) : goToLower (goToLower s) = goToLower s := by
  simp only [goToLower]
  congr 1
  rw [List.map_map]
  exact List.map_congr_left (fun c _ => charToLower_idem c)

/-! ### Sample records -/

/-- A fully-populated sample record (mirrors the mock record used by the
repository's handler tests). -/
def infoSample : IPInfo :=
  { ip := "8.8.8.8"
    hostname := ""
    country := "United States"
    isoCode := "US"
    inEU := false
    city := "Mountain View"
    region := "California"
    latitude := some ((374056 : Rat) / 10000)
    longitude := some (-(1220775 : Rat) / 10000)
    timezone := "America/Los_Angeles"
    asn := some 15169
    organization := "Google LLC"
    attribution := Attribution }

/-- A record with a country but no city value (Go zero value `""`). -/
def infoNoCity : IPInfo :=
  { ip := "8.8.8.8"
    hostname := ""
    country := "United States"
    isoCode := "US"
    inEU := false
    city := ""
    region := ""
    latitude := none
    longitude := none
    timezone := ""
    asn := none
    organization := ""
    attribution := Attribution }

/-! ### Claim theorems -/

/-- C7: for every record, projecting with an empty request list yields a
mapping containing exactly the two keys `ip` and `attribution` (with the
record's values) and nothing else. -/
theorem C7_empty_request_exact (info : IPInfo) :
    info.FilterFields [] =
      [("ip", FieldValue.str info.ip),
       ("attribution", FieldValue.str info.attribution)] := rfl

/-- C10: `Reader.Lookup` never fails: for every IP input and every outcome
of the city dataset query, the ASN dataset query and the reverse-DNS
resolution, it returns a non-nil record and a nil error — so the HTTP
boundary's internal-lookup-failure (server error) branch is unreachable
through this Reader. -/
theorem C10_lookup_never_fails (e : Bool) (ipStr : String)
    (cq : Except String GoCity) (aq : Except String GoASN)
    (dq : Except String (List String)) :
    (Reader.Lookup e ipStr cq aq dq).1.isSome = true ∧
    (Reader.Lookup e ipStr cq aq dq).2 = none :=
  ⟨rfl, rfl⟩

/-- C1 counterexample: projecting with requests `["country", "city"]` on a
record whose city is absent (the Go zero value `""`) does NOT yield exactly
the keys `{ip, attribution, country}`: the returned mapping also contains
the key `city`, bound to the empty value — `FilterFields` copies a
recognized requested field into the result unconditionally, so the claim
as stated is false at this input. -/
theorem C1_counterexample_empty_city_key_present :
    infoNoCity.city = "" ∧
    infoNoCity.FilterFields ["country", "city"] =
      [("ip", FieldValue.str "8.8.8.8"),
       ("attribution", FieldValue.str Attribution),
       ("country", FieldValue.str "United States"),
       ("city", FieldValue.str "")] ∧
    containsKey (infoNoCity.FilterFields ["country", "city"]) "city" = true :=
  ⟨rfl, rfl, rfl⟩

/-- C1 (amended): a key appears in the mapping returned by `FilterFields`
exactly when it is `ip`, `attribution`, or a requested name in the
recognized key set — irrespective of whether the underlying field has a
value: recognized requested fields are emitted even when empty/absent. -/
theorem C1_filterFields_key_presence (info : IPInfo) (fields : List String)
    (k : String) :
    containsKey (info.FilterFields fields) k = true ↔
      (k = "ip" ∨ k = "attribution" ∨ (k ∈ fields ∧ k ∈ recognizedKeys)) := by
  unfold IPInfo.FilterFields
  rw [foldl_projStep_containsKey]
  have hinit : containsKey
      [("ip", FieldValue.str info.ip),
       ("attribution", FieldValue.str info.attribution)] k = true ↔
      (k = "ip" ∨ k = "attribution") := by
    simp only [containsKey, List.any_cons, List.any_nil, Bool.or_false,
      Bool.or_eq_true, beq_iff_eq]
    exact or_congr eq_comm eq_comm
  rw [hinit, or_assoc]

/-- C2: the Field Projector (the handler's field-name normalization
followed by `FilterFields`) is case-insensitive in the requested field
names: projecting `["COUNTRY"]` equals projecting `["country"]`, and in
general projecting any request list equals projecting the same list with
every name lowercased. -/
theorem C2_projection_case_insensitive :
    (∀ info : IPInfo,
      projectFields info ["COUNTRY"] = projectFields info ["country"]) ∧
    (∀ (info : IPInfo) (fields : List String),
      projectFields info fields = projectFields info (fields.map goToLower)) := by
  constructor
  · intro info
    rfl
  · intro info fields
    unfold projectFields normalizeFields
    congr 1
    rw [List.map_map]
    exact List.map_congr_left (fun s _ => (goToLower_idem s).symm)

/-- C4: every view produced by the Lookup Service or the Field Projector
contains both `ip` (the textual form of the queried address) and
`attribution`, whose value is the fixed constant
"IP Geolocation by DB-IP (https://db-ip.com)" — for every IP input and
every requested field list, including the empty list. -/
theorem C4_ip_attribution_always_present :
    (∀ (e : Bool) (ipStr : String) (cq : Except String GoCity)
        (aq : Except String GoASN) (dq : Except String (List String)),
      ((Reader.Lookup e ipStr cq aq dq).1.map fun i => (i.ip, i.attribution)) =
        some (ipStr, Attribution)) ∧
    (∀ (info : IPInfo) (fields : List String),
      List.lookup "ip" (info.FilterFields fields) =
        some (FieldValue.str info.ip) ∧
      List.lookup "attribution" (info.FilterFields fields) =
        some (FieldValue.str info.attribution)) ∧
    Attribution = "IP Geolocation by DB-IP (https://db-ip.com)" := by
  refine ⟨?_, ?_, rfl⟩
  · intro e ipStr cq aq dq
    simp only [Reader.Lookup, Option.map_some', Option.some.injEq]
    rw [(applyDNS_keeps _ _ _).1, (applyASN_keeps _ _).1, (applyCity_keeps _ _).1,
      (applyDNS_keeps _ _ _).2.1, (applyASN_keeps _ _).2.1,
      (applyCity_keeps _ _).2.1]
    rfl
  · intro info fields
    unfold IPInfo.FilterFields
    constructor
    · rw [foldl_projStep_lookup_not_recognized info fields _ "ip" (by decide)]
      rfl
    · rw [foldl_projStep_lookup_not_recognized info fields _ "attribution"
        (by decide)]
      rfl

/-- C8: unrecognized field names are no-ops in projection: removing a name
outside the recognized key set from anywhere in the request list does not
change the output, and in particular projecting `["bogus", "country"]`
equals projecting `["country"]`. -/
theorem C8_unrecognized_names_noop (info : IPInfo) (l1 l2 : List String)
    (b : String) (hb : b ∉ recognizedKeys) :
    info.FilterFields (l1 ++ b :: l2) = info.FilterFields (l1 ++ l2) ∧
    info.FilterFields ["bogus", "country"] = info.FilterFields ["country"] := by
  constructor
  · unfold IPInfo.FilterFields
    rw [List.foldl_append, List.foldl_append, List.foldl_cons]
    have hstep : ∀ acc, projStep info acc b = acc := by
      intro acc
      unfold projStep
      cases hlook : List.lookup b (fieldMapList info) with
      | none => rfl
      | some v =>
        exact absurd ((lookup_fieldMapList_isSome info b).mp (by rw [hlook]; rfl))
          hb
    rw [hstep]
  · rfl

/-- Witness for C8 at a concrete record and request list. -/
theorem C8_unrecognized_names_noop_witness :
    infoSample.FilterFields (["city"] ++ "bogus" :: ["country"]) =
      infoSample.FilterFields (["city"] ++ ["country"]) :=
  (C8_unrecognized_names_noop infoSample ["city"] ["country"] "bogus"
    (by decide)).1

/-- A concrete city-dataset record used by witnesses. -/
def cityW : GoCity :=
  { country := { namesEn := "United States", isoCode := "US",
                 isInEuropeanUnion := false }
    city := { namesEn := "Mountain View" }
    subdivisions := [{ namesEn := "California" }]
    location := { latitude := 37, longitude := -122,
                  timeZone := "America/Los_Angeles" } }

/-- The record `Reader.Lookup` produces on `cityW` when the ASN and DNS
queries fail. -/
def infoW : IPInfo :=
  ((Reader.Lookup false "1.2.3.4" (.ok cityW) (.error "asn fail")
    (.error "dns fail")).1).getD (baseInfo "")

/-- The record `Reader.Lookup` produces with reverse-DNS enabled, both
dataset queries failing, and one resolved name ending in a dot. -/
def infoW6 : IPInfo :=
  ((Reader.Lookup true "8.8.8.8" (.error "e") (.error "e")
    (.ok ["dns.google."])).1).getD (baseInfo "")

/-- C3: in every lookup result latitude and longitude are present only
together; when the location query matched, they are absent exactly when
the dataset's coordinate pair is (0, 0), and otherwise both are set to the
dataset's values (the zero pair is a "no coordinate data" sentinel). -/
theorem C3_coordinates_zero_sentinel (e : Bool) (ipStr : String)
    (cq : Except String GoCity) (aq : Except String GoASN)
    (dq : Except String (List String)) (info : IPInfo)
    (hinfo : (Reader.Lookup e ipStr cq aq dq).1 = some info) :
    (info.latitude.isSome ↔ info.longitude.isSome) ∧
    (∀ city : GoCity, cq = .ok city →
      ((info.latitude = none ∧ info.longitude = none) ↔
        (city.location.latitude = 0 ∧ city.location.longitude = 0)) ∧
      ((city.location.latitude ≠ 0 ∨ city.location.longitude ≠ 0) →
        (info.latitude = some city.location.latitude ∧
         info.longitude = some city.location.longitude))) := by
  simp only [Reader.Lookup, Option.some.injEq] at hinfo
  subst hinfo
  obtain ⟨-, -, -, -, -, -, -, hDlat, hDlon, -, -, -⟩ :=
    applyDNS_keeps e (applyASN (applyCity (baseInfo ipStr) cq) aq) dq
  obtain ⟨-, -, -, -, -, -, -, -, hAlat, hAlon, -⟩ :=
    applyASN_keeps (applyCity (baseInfo ipStr) cq) aq
  rw [hDlat, hAlat, hDlon, hAlon]
  constructor
  · cases cq with
    | error m => exact Iff.rfl
    | ok city =>
      rw [applyCity_ok]
      by_cases h : city.location.latitude ≠ 0 ∨ city.location.longitude ≠ 0 <;>
        simp [h, baseInfo]
  · intro city hcq
    subst hcq
    rw [applyCity_ok]
    by_cases h : city.location.latitude ≠ 0 ∨ city.location.longitude ≠ 0
    · simp only [if_pos h]
      refine ⟨?_, fun _ => ⟨trivial, trivial⟩⟩
      constructor
      · intro hcontra
        exact absurd hcontra.1 (by simp)
      · rintro ⟨h0, h1⟩
        rcases h with hh | hh
        · exact absurd h0 hh
        · exact absurd h1 hh
    · simp only [if_neg h]
      push_neg at h
      refine ⟨⟨fun _ => h, fun _ => ⟨rfl, rfl⟩⟩, fun hcontra => ?_⟩
      rcases hcontra with hh | hh
      · exact absurd h.1 hh
      · exact absurd h.2 hh

/-- Witness for C3: on `cityW` (coordinates (37, -122)) both coordinates
are present with the dataset's values. -/
theorem C3_coordinates_zero_sentinel_witness :
    infoW.latitude = some 37 ∧ infoW.longitude = some (-122) :=
  ((C3_coordinates_zero_sentinel false "1.2.3.4" (.ok cityW)
      (.error "asn fail") (.error "dns fail") infoW rfl).2 cityW rfl).2
    (Or.inl (by decide))

/-- C5: the two dataset queries in lookup are independent: a location
match with a failed ASN query populates the location fields and leaves
`asn`/`organization` unset, and vice versa; an unmatched query never fails
the call (the result record still exists). -/
theorem C5_queries_independent (e : Bool) (ipStr : String)
    (cq : Except String GoCity) (aq : Except String GoASN)
    (dq : Except String (List String)) (info : IPInfo)
    (hinfo : (Reader.Lookup e ipStr cq aq dq).1 = some info) :
    (∀ (city : GoCity) (err : String), cq = .ok city → aq = .error err →
      info.asn = none ∧ info.organization = "" ∧
      info.country = city.country.namesEn ∧
      info.isoCode = city.country.isoCode ∧
      info.inEU = city.country.isInEuropeanUnion ∧
      info.city = city.city.namesEn ∧
      info.timezone = city.location.timeZone ∧
      (∀ s rest, city.subdivisions = s :: rest → info.region = s.namesEn) ∧
      ((city.location.latitude ≠ 0 ∨ city.location.longitude ≠ 0) →
        info.latitude = some city.location.latitude ∧
        info.longitude = some city.location.longitude)) ∧
    (∀ (err : String) (asn : GoASN), cq = .error err → aq = .ok asn →
      info.asn = some asn.autonomousSystemNumber ∧
      info.organization = asn.autonomousSystemOrganization ∧
      info.country = "" ∧ info.isoCode = "" ∧ info.city = "" ∧
      info.region = "" ∧ info.latitude = none ∧ info.longitude = none ∧
      info.timezone = "") := by
  simp only [Reader.Lookup, Option.some.injEq] at hinfo
  subst hinfo
  constructor
  · intro city err hcq haq
    subst hcq
    subst haq
    obtain ⟨-, -, hc, hiso, hin, hcity, hreg, hlat, hlon, htz, hasn, horg⟩ :=
      applyDNS_keeps e (applyASN (applyCity (baseInfo ipStr) (.ok city))
        (.error err)) dq
    rw [hasn, horg, hc, hiso, hin, hcity, htz, hreg, hlat, hlon,
      applyASN_err, applyCity_ok]
    refine ⟨rfl, rfl, rfl, rfl, rfl, rfl, rfl, ?_, ?_⟩
    · intro s rest hsubs
      dsimp only
      rw [hsubs]
    · intro h
      dsimp only
      rw [if_pos h, if_pos h]
      exact ⟨rfl, rfl⟩
  · intro err asn hcq haq
    subst hcq
    subst haq
    obtain ⟨-, -, hc, hiso, hin, hcity, hreg, hlat, hlon, htz, hasn, horg⟩ :=
      applyDNS_keeps e (applyASN (applyCity (baseInfo ipStr) (.error err))
        (.ok asn)) dq
    rw [hasn, horg, hc, hiso, hcity, hreg, hlat, hlon, htz,
      applyASN_ok, applyCity_err]
    exact ⟨rfl, rfl, rfl, rfl, rfl, rfl, rfl, rfl, rfl⟩

/-- Witness for C5: on `cityW` with a failed ASN query, `asn` is unset and
the country is populated from the match. -/
theorem C5_queries_independent_witness :
    infoW.asn = none ∧ infoW.organization = "" ∧
    infoW.country = "United States" := by
  have h := (C5_queries_independent false "1.2.3.4" (.ok cityW)
    (.error "asn fail") (.error "dns fail") infoW rfl).1 cityW "asn fail" rfl rfl
  exact ⟨h.1, h.2.1, h.2.2.1⟩

/-- C6: when reverse-DNS is enabled and resolution succeeds with at least
one name, the result's hostname is the first name with a single trailing
dot stripped; when disabled, or on failure, or with no names, hostname is
absent (the Go zero value `""`); a resolution failure never fails the
lookup (the error component stays nil). -/
theorem C6_hostname_reverse_dns (e : Bool) (ipStr : String)
    (cq : Except String GoCity) (aq : Except String GoASN)
    (dq : Except String (List String)) (info : IPInfo)
    (hinfo : (Reader.Lookup e ipStr cq aq dq).1 = some info) :
    (Reader.Lookup e ipStr cq aq dq).2 = none ∧
    (∀ name rest, e = true → dq = .ok (name :: rest) →
      info.hostname = stripTrailingDot name) ∧
    (e = false → info.hostname = "") ∧
    (∀ msg, dq = .error msg → info.hostname = "") ∧
    (dq = .ok [] → info.hostname = "") := by
  simp only [Reader.Lookup, Option.some.injEq] at hinfo
  subst hinfo
  have hX : (applyASN (applyCity (baseInfo ipStr) cq) aq).hostname = "" := by
    rw [(applyASN_keeps _ _).2.2.1, (applyCity_keeps _ _).2.2.1]
    rfl
  refine ⟨rfl, ?_, ?_, ?_, ?_⟩
  · intro name rest he hdq
    subst he
    subst hdq
    rw [applyDNS_cons]
  · intro he
    subst he
    rw [applyDNS_disabled]
    exact hX
  · intro msg hdq
    subst hdq
    rw [applyDNS_err]
    exact hX
  · intro hdq
    subst hdq
    rw [applyDNS_nil]
    exact hX

/-- Witness for C6: with reverse-DNS enabled and the resolver returning
["dns.google."], the hostname is "dns.google" (trailing dot stripped). -/
theorem C6_hostname_reverse_dns_witness : infoW6.hostname = "dns.google" := by
  have h := (C6_hostname_reverse_dns true "8.8.8.8" (.error "e") (.error "e")
    (.ok ["dns.google."]) infoW6 rfl).2.1 "dns.google." [] rfl rfl
  rw [h]
  decide

/-- C9: constructing the service from two database-open outcomes fails
exactly when at least one open failed; the error names the dataset that
failed to open (city checked first), and on failure no service value is
returned. -/
theorem C9_newReader_error_naming (cityOpen asnOpen : Except String GoDB)
    (enable : Bool) :
    ((∃ msg, NewReader cityOpen asnOpen enable = .error msg) ↔
      ((∃ e, cityOpen = .error e) ∨ (∃ e, asnOpen = .error e))) ∧
    (∀ e, cityOpen = .error e →
      NewReader cityOpen asnOpen enable =
        .error ("failed to open city database: " ++ e)) ∧
    (∀ db e, cityOpen = .ok db → asnOpen = .error e →
      NewReader cityOpen asnOpen enable =
        .error ("failed to open ASN database: " ++ e)) ∧
    (∀ msg r, NewReader cityOpen asnOpen enable = .error msg →
      NewReader cityOpen asnOpen enable ≠ .ok r) := by
  refine ⟨?_, ?_, ?_, ?_⟩
  · constructor
    · rintro ⟨msg, hmsg⟩
      rcases cityOpen with ec | cdb
      · exact Or.inl ⟨ec, rfl⟩
      · rcases asnOpen with ea | adb
        · exact Or.inr ⟨ea, rfl⟩
        · exact absurd hmsg (by simp [NewReader])
    · rintro (⟨ec, hc⟩ | ⟨ea, ha⟩)
      · subst hc
        exact ⟨_, rfl⟩
      · subst ha
        rcases cityOpen with ec | cdb
        · exact ⟨_, rfl⟩
        · exact ⟨_, rfl⟩
  · intro e he
    subst he
    rfl
  · intro db e hc ha
    subst hc
    subst ha
    rfl
  · intro msg r hmsg hok
    rw [hmsg] at hok
    exact Except.noConfusion hok

/-- Witness for C9: a failed city open yields the city-naming error. -/
theorem C9_newReader_error_naming_witness :
    NewReader (.error "open city.mmdb: no such file")
      (.ok { path := "asn.mmdb" }) true =
      .error ("failed to open city database: open city.mmdb: no such file") :=
  (C9_newReader_error_naming (.error "open city.mmdb: no such file")
    (.ok { path := "asn.mmdb" }) true).2.1 "open city.mmdb: no such file" rfl

end IpWhere
